import Mathlib

/-!
Verification of the trend-enrichment pipeline of `t3_scraper.py`.

Python strings are modelled as `List Char`; the fixed tags (platform,
sentiment label, run identifier) are Lean `String`s.  Python floats are
modelled as exact rationals: every numeric value reached by the claims is a
small decimal for which the double-precision computation in the source is
exact.  `float(s)` on a decimal literal is modelled by `parseFloat`, which
returns the pair (mantissa, number of fractional digits) whose rational
value `floatVal` is the parsed number; it returns `none` exactly where
`float` raises `ValueError` on the literal forms a count string can
produce (optional sign, digits, at most one decimal point, no exponent).
Python `int(x)` on a float is truncation toward zero, modelled by `truncQ`,
and `round(x, 2)` is round-half-to-even at two decimal places, modelled by
`roundHalf` / `round2`.
-/

/-- Python `str.replace(old, new)` for a single-character pattern:
replaces every occurrence of `old` by `new`. -/
def replaceChar (old : Char) (new : List Char) : List Char → List Char
  | [] => []
  | c :: cs =>
    if c = old then new ++ replaceChar old new cs
    else c :: replaceChar old new cs

/-- Python `str.lower()` (ASCII model; the keyword tables are ASCII). -/
def pyLower (s : List Char) : List Char := s.map Char.toLower

/-- Python `str.upper()` (ASCII model). -/
def pyUpper (s : List Char) : List Char := s.map Char.toUpper

/-- Does `needle` occur at the head of `hay`?  Helper for `containsSub`. -/
def beginsWith : List Char → List Char → Bool
  | [], _ => true
  | _ :: _, [] => false
  | c :: cs, d :: ds => c == d && beginsWith cs ds

/-- Python `needle in hay` on strings: contiguous substring containment. -/
def containsSub (hay needle : List Char) : Bool :=
  match hay with
  | [] => needle.isEmpty
  | _ :: t => beginsWith needle hay || containsSub t needle

/-- Value of a string of decimal digits, as Python `int` parses it. -/
def digitsVal (l : List Char) : Nat :=
  l.foldl (fun n c => n * 10 + (c.toNat - 48)) 0

/-- Python `int(x)` applied to a float: truncation toward zero. -/
def truncQ (q : ℚ) : ℤ :=
  if q < 0 then -(Int.floor (-q)) else Int.floor q

/-- Unsigned decimal literal as accepted by Python `float`: digits,
optionally a point and fractional digits ("25", "2.1", "1.", ".5").
Returns (mantissa, number of fractional digits). -/
def parseUnsignedFloat (l : List Char) : Option (ℕ × ℕ) :=
  let ip := l.takeWhile Char.isDigit
  match l.drop ip.length with
  | [] => if ip = [] then none else some (digitsVal ip, 0)
  | c :: frac =>
    if c = '.' ∧ frac.all Char.isDigit ∧ (ip ≠ [] ∨ frac ≠ []) then
      some (digitsVal ip * 10 ^ frac.length + digitsVal frac, frac.length)
    else none

/-- Python `float(s)` on the literal forms a count string can produce:
optional sign, then an unsigned decimal literal; `none` where `float`
raises `ValueError`. -/
def parseFloat (l : List Char) : Option (ℤ × ℕ) :=
  match l with
  | [] => none
  | c :: cs =>
    if c = '-' then (parseUnsignedFloat cs).map (fun p => (-(p.1 : ℤ), p.2))
    else if c = '+' then (parseUnsignedFloat cs).map (fun p => ((p.1 : ℤ), p.2))
    else (parseUnsignedFloat (c :: cs)).map (fun p => ((p.1 : ℤ), p.2))

/-- Rational value of a parsed float: mantissa over 10 ^ fractional digits. -/
def floatVal (p : ℤ × ℕ) : ℚ := (p.1 : ℚ) / (10 : ℚ) ^ p.2

/-- `parse_post_count` (src/t3_scraper.py lines 215-230): converts a count
string like "25K" or "2.1M" to a number.  `"N/A"` or the empty string give
0; commas are stripped; `M` / `K` are detected case-insensitively on the
uppercased string and the numeric prefix is parsed as a float and
multiplied by 1000000 / 1000 before truncating to an integer; otherwise
all non-digits are dropped and the rest parsed as an integer; any parse
failure degrades to 0. -/
def parse_post_count (count_str : List Char) : ℤ :=
  if count_str = ("N/A".data) ∨ count_str = [] then 0
  else
    let cc := replaceChar ',' [] count_str
    let up := pyUpper cc
    if up.contains 'M' then
      match parseFloat (replaceChar 'M' [] up) with
      | some p => truncQ (floatVal p * 1000000)
      | none => 0
    else if up.contains 'K' then
      match parseFloat (replaceChar 'K' [] up) with
      | some p => truncQ (floatVal p * 1000)
      | none => 0
    else
      let d := cc.filter Char.isDigit
      if d = [] then 0 else (digitsVal d : ℤ)

/-- Round-half-to-even to an integer, as Python `round` does. -/
def roundHalf (q : ℚ) : ℤ :=
  if q - Int.floor q < 1/2 then Int.floor q
  else if 1/2 < q - Int.floor q then Int.floor q + 1
  else if Int.floor q % 2 = 0 then Int.floor q else Int.floor q + 1

/-- Python `round(x, 2)`: round half to even at two decimal places. -/
def round2 (q : ℚ) : ℚ := (roundHalf (q * 100) : ℚ) / 100

/-- The "urgency" keyword table of `calculate_engagement_score` (line 194). -/
def trendingKeywords : List (List Char) :=
  ["election".data, "breaking".data, "urgent".data, "live".data,
   "update".data, "news".data]

/-- The locale keyword table of `calculate_engagement_score` (line 198). -/
def indianKeywords : List (List Char) :=
  ["india".data, "indian".data, "bharath".data, "delhi".data,
   "mumbai".data, "modi".data, "bjp".data, "congress".data]

/-- The marker substrings of `calculate_engagement_score` (line 205). -/
def markerSubstrings : List (List Char) :=
  ["2024".data, "2023".data, "!".data, "@".data]

/-- A raw trend record as produced by the scraper: the dict with keys
`topic`, `count`, `twitter_link` (src/t3_scraper.py lines 100-104). -/
structure RawTrend where
  topic : List Char
  count : List Char
  twitter_link : List Char

/-- The inline count cleaning of `calculate_engagement_score` (lines
183-184): replace uppercase `K` by "000" and uppercase `M` by "000000",
drop commas, then keep only digits. -/
def scorerCountDigits (s : List Char) : List Char :=
  (replaceChar ',' [] (replaceChar 'M' ("000000".data)
    (replaceChar 'K' ("000".data) s))).filter Char.isDigit

/-- The `tweet_count` value used by `calculate_engagement_score` (line
186): `int` of the cleaned digit string, or `none` when that string is
empty and the conversion is skipped. -/
def scorerTweetCount (s : List Char) : Option ℕ :=
  if scorerCountDigits s = [] then none else some (digitsVal (scorerCountDigits s))

/-- The count contribution of `calculate_engagement_score` (lines
181-190): guarded by `count_str != "N/A" and count_str`, adds
`min(5, max(0, tweet_count / 10000 * 2))` when `tweet_count > 0`. -/
def countContribution (count_str : List Char) : ℚ :=
  if count_str ≠ ("N/A".data) ∧ count_str ≠ [] then
    match scorerTweetCount count_str with
    | some tc => if 0 < tc then min 5 (max 0 ((tc : ℚ) / 10000 * 2)) else 0
    | none => 0
  else 0

/-- The body of `calculate_engagement_score` (lines 176-209): base 1.0,
plus the count contribution, plus 1.5 / 1.0 / 0.5 / 0.5 keyword, locale,
length, marker bonuses, then round to 2 decimals and clamp to [1, 10]. -/
def engagementBody (td : RawTrend) : ℚ :=
  let topicLower := pyLower td.topic
  let s0 : ℚ := 1 + countContribution td.count
  let s1 := s0 + (if trendingKeywords.any (fun k => containsSub topicLower k) then 3/2 else 0)
  let s2 := s1 + (if indianKeywords.any (fun k => containsSub topicLower k) then 1 else 0)
  let s3 := s2 + (if 15 < td.topic.length then 1/2 else 0)
  let s4 := s3 + (if markerSubstrings.any (fun m => containsSub td.topic m) then 1/2 else 0)
  max 1 (min 10 (round2 s4))

/-- The outer try/except of `calculate_engagement_score` (lines 175,
211-213): any failure of the body degrades to 1.0.  A body that cannot
fail is `fun t => some (engagementBody t)`. -/
def engagementGuard (body : RawTrend → Option ℚ) (td : RawTrend) : ℚ :=
  match body td with
  | some v => v
  | none => 1

/-- `calculate_engagement_score` (src/t3_scraper.py lines 173-213): the
guarded body.  In this embedding every operation of the body is total, so
the guard's failure branch is never taken. -/
def calculate_engagement_score (td : RawTrend) : ℚ :=
  engagementGuard (fun t => some (engagementBody t)) td

/-- The text preprocessing of `analyze_hashtag_sentiment` (line 152):
drop `#`, replace underscores by spaces. -/
def cleanSentimentText (hashtag : List Char) : List Char :=
  replaceChar '_' (" ".data) (replaceChar '#' [] hashtag)

/-- The polarity thresholds of `analyze_hashtag_sentiment` (lines
159-164). -/
def sentimentLabelOf (p : ℚ) : String :=
  if 1/20 < p then "Positive"
  else if p < -(1/20) then "Negative"
  else "Neutral"

/-- `analyze_hashtag_sentiment` (src/t3_scraper.py lines 149-171).  The
external TextBlob polarity call is the collaborator boundary, modelled as
an oracle `polarityOf`; `none` models a call that raises, handled by the
except branch returning ("Neutral", 0.0). -/
def analyze_hashtag_sentiment (polarityOf : List Char → Option ℚ)
    (hashtag : List Char) : String × ℚ :=
  match polarityOf (cleanSentimentText hashtag) with
  | some p => (sentimentLabelOf p, p)
  | none => ("Neutral", 0)

/-- The `default` template of `get_hashtag_post_content` (line 135). -/
def defaultContent (hc : List Char) : List Char :=
  ("Trending discussion about ".data) ++ hc ++
    (". Join the conversation and share your thoughts.".data)

/-- The ordered keyword-to-template mapping of `get_hashtag_post_content`
(lines 128-136), instantiated at the cleaned hashtag. -/
def sample_contents (hc : List Char) : List (List Char × List Char) :=
  [("election".data, ("Breaking: Major developments in ".data) ++ hc ++
      (". Citizens actively participating in democratic process.".data)),
   ("flood".data, ("Emergency update on ".data) ++ hc ++
      (". Relief operations underway, stay safe and follow official guidelines.".data)),
   ("dharma".data, ("Spiritual discourse on ".data) ++ hc ++
      (". Ancient wisdom for modern times.".data)),
   ("football".data, ("Exciting match updates for ".data) ++ hc ++
      (". Team performance analysis and fan reactions.".data)),
   ("bollywood".data, ("Latest entertainment news about ".data) ++ hc ++
      (". Celebrity updates and movie reviews.".data)),
   ("batra".data, ("Tribute to heroes in ".data) ++ hc ++
      (". Remembering courage and sacrifice for the nation.".data)),
   ("default".data, defaultContent hc)]

/-- `get_hashtag_post_content` (src/t3_scraper.py lines 123-147): strip
`#`, scan the mapping in order for the first key contained in the
lowercased cleaned hashtag, else fall back to the default template.  The
except branch (line 145-147) is unreachable: every operation in the body
is total. -/
def get_hashtag_post_content (hashtag : List Char) : List Char :=
  let hc := replaceChar '#' [] hashtag
  match (sample_contents hc).find? (fun kv => containsSub (pyLower hc) kv.1) with
  | some kv => kv.2
  | none => defaultContent hc

/-- One stored record (src/t3_scraper.py lines 279-296): the processed
topic dict, with the `metadata` sub-dict flattened into `meta_`-fields. -/
structure EnrichedTrend where
  platform : String
  topic_hashtag : List Char
  engagement_score : ℚ
  sentiment_polarity : ℚ
  sentiment_label : String
  posts : ℤ
  views : ℤ
  meta_twitter_link : List Char
  meta_post_content : List Char
  meta_raw_count : List Char
  version_id : String

/-- The per-topic processing of `insert_fresh_data_only` (lines 260-298):
score, sentiment, content and count for one raw trend, stamped with the
run identifier. -/
def enrichOne (polarityOf : List Char → Option ℚ) (runId : String)
    (t : RawTrend) : EnrichedTrend :=
  { platform := "Twitter"
    topic_hashtag := t.topic
    engagement_score := calculate_engagement_score t
    sentiment_polarity := (analyze_hashtag_sentiment polarityOf t.topic).2
    sentiment_label := (analyze_hashtag_sentiment polarityOf t.topic).1
    posts := parse_post_count t.count
    views := 0
    meta_twitter_link := t.twitter_link
    meta_post_content := get_hashtag_post_content t.topic
    meta_raw_count := t.count
    version_id := runId }

/-- The record-assembly loop of `insert_fresh_data_only`
(src/t3_scraper.py lines 246-314): one processed record appended per
input topic, in input order.  The surrounding store delete/insert is the
excluded Store Sync collaborator. -/
def insert_fresh_data_only (polarityOf : List Char → Option ℚ)
    (runId : String) (topics_list : List RawTrend) : List EnrichedTrend :=
  topics_list.map (enrichOne polarityOf runId)

/-- Modelled from the spec (section 4.4 step 1): the count contribution
scoreEngagement would have if it parsed `rawCount` via the Count Parser:
"Parse rawCount via Count Parser; if resulting count > 0, add
min(5, max(0, count/10000 * 2))".  Used to compare the claimed refinement
against the source's `countContribution`. -/
def specCountContribution (s : List Char) : ℚ :=
  if 0 < parse_post_count s then
    min 5 (max 0 ((parse_post_count s : ℚ) / 10000 * 2))
  else 0

/-- The characters a well-formed count string is drawn from: digits,
decimal point, comma, and the K/M suffix letters in either case. -/
def countCharset : List Char := "0123456789.,KkMm".data

/-- Truncation toward zero of `(a : ℚ) / b` for positive `b` is integer
T-division, mirroring Python `int()` on an exact quotient. -/
lemma truncQ_intCast_div (a b : ℤ) (hb : 0 < b) :
    truncQ ((a : ℚ) / (b : ℚ)) = a.tdiv b := by
  have hbq : (0 : ℚ) < (b : ℚ) := by exact_mod_cast hb
  have hbtn : ((b.toNat : ℕ) : ℤ) = b := Int.toNat_of_nonneg hb.le
  rcases le_or_lt 0 a with ha | ha
  · have haq : (0 : ℚ) ≤ (a : ℚ) := by exact_mod_cast ha
    have hnonneg : (0 : ℚ) ≤ (a : ℚ) / (b : ℚ) := div_nonneg haq hbq.le
    rw [truncQ, if_neg (not_lt.mpr hnonneg)]
    have hcast : ((b.toNat : ℕ) : ℚ) = (b : ℚ) := by exact_mod_cast hbtn
    rw [← hcast, Rat.floor_intCast_div_natCast, hbtn,
      Int.tdiv_eq_ediv ha hb.le]
  · have haq : ((a : ℚ)) < 0 := by exact_mod_cast ha
    have hneg : (a : ℚ) / (b : ℚ) < 0 := div_neg_of_neg_of_pos haq hbq
    rw [truncQ, if_pos hneg]
    have hrw : -((a : ℚ) / (b : ℚ)) = ((-a : ℤ) : ℚ) / (b : ℚ) := by
      push_cast; ring
    rw [hrw]
    have hcast : ((b.toNat : ℕ) : ℚ) = (b : ℚ) := by exact_mod_cast hbtn
    rw [← hcast, Rat.floor_intCast_div_natCast, hbtn,
      ← Int.tdiv_eq_ediv (by omega : (0 : ℤ) ≤ -a) hb.le, Int.neg_tdiv, neg_neg]

/-- Multiplying a parsed float by a constant and truncating equals scaled
integer T-division. -/
lemma truncQ_floatVal_mul (m : ℤ) (e : ℕ) (c : ℤ) :
    truncQ (floatVal (m, e) * (c : ℚ)) = (m * c).tdiv ((10 : ℤ) ^ e) := by
  have hpow : ((((10 : ℤ) ^ e) : ℤ) : ℚ) = (10 : ℚ) ^ e := by push_cast; ring
  have hrw : floatVal (m, e) * (c : ℚ) = ((m * c : ℤ) : ℚ) / (((10 : ℤ) ^ e : ℤ) : ℚ) := by
    rw [hpow, floatVal]; push_cast; ring
  rw [hrw, truncQ_intCast_div _ _ (by positivity)]

/-- Evaluation form of `parse_post_count`: the float branches computed by
integer T-division, so that concrete inputs reduce by `decide`. -/
lemma parse_post_count_eval (count_str : List Char) :
    parse_post_count count_str =
      (if count_str = ("N/A".data) ∨ count_str = [] then 0
      else
        let cc := replaceChar ',' [] count_str
        let up := pyUpper cc
        if up.contains 'M' then
          match parseFloat (replaceChar 'M' [] up) with
          | some p => (p.1 * 1000000).tdiv ((10 : ℤ) ^ p.2)
          | none => 0
        else if up.contains 'K' then
          match parseFloat (replaceChar 'K' [] up) with
          | some p => (p.1 * 1000).tdiv ((10 : ℤ) ^ p.2)
          | none => 0
        else
          let d := cc.filter Char.isDigit
          if d = [] then 0 else (digitsVal d : ℤ)) := by
  rw [parse_post_count]
  by_cases hna : count_str = ("N/A".data) ∨ count_str = []
  · simp only [if_pos hna]
  · simp only [if_neg hna]
    rcases hM : (pyUpper (replaceChar ',' [] count_str)).contains 'M' with _ | _
    · simp only [hM, Bool.false_eq_true, if_false]
      rcases hK : (pyUpper (replaceChar ',' [] count_str)).contains 'K' with _ | _
      · simp only [hK, Bool.false_eq_true, if_false]
      · simp only [hK, if_true]
        rcases hp : parseFloat (replaceChar 'K' [] (pyUpper (replaceChar ',' [] count_str))) with _ | ⟨m, e⟩
        · simp only [hp]
        · have h1000 : ((1000 : ℤ) : ℚ) = (1000 : ℚ) := by norm_num
          simp only [hp, ← h1000, truncQ_floatVal_mul]
    · simp only [hM, if_true]
      rcases hp : parseFloat (replaceChar 'M' [] (pyUpper (replaceChar ',' [] count_str))) with _ | ⟨m, e⟩
      · simp only [hp]
      · have h1000000 : ((1000000 : ℤ) : ℚ) = (1000000 : ℚ) := by norm_num
        simp only [hp, ← h1000000, truncQ_floatVal_mul]

/-- Characters of `replaceChar old new l` come from `new` or from `l`. -/
lemma mem_replaceChar (a old : Char) (new : List Char) :
    ∀ l : List Char, a ∈ replaceChar old new l → a ∈ new ∨ a ∈ l := by
  intro l
  induction l with
  | nil => intro h; rw [replaceChar] at h; exact absurd h (List.not_mem_nil a)
  | cons c cs ih =>
    intro h
    rw [replaceChar] at h
    by_cases hc : c = old
    · rw [if_pos hc] at h
      rcases List.mem_append.mp h with h1 | h2
      · exact Or.inl h1
      · rcases ih h2 with h3 | h4
        · exact Or.inl h3
        · exact Or.inr (List.mem_cons_of_mem _ h4)
    · rw [if_neg hc] at h
      rcases List.mem_cons.mp h with h1 | h2
      · exact Or.inr (h1 ▸ List.mem_cons_self _ _)
      · rcases ih h2 with h3 | h4
        · exact Or.inl h3
        · exact Or.inr (List.mem_cons_of_mem _ h4)

/-- Uppercasing a count-charset character stays inside digits, point,
comma and uppercase suffix letters; in particular it is never a sign. -/
lemma toUpper_countCharset :
    ∀ c ∈ countCharset, Char.toUpper c ∈ ("0123456789.,KM".data) := by decide

/-- A parsed float whose literal has no minus sign has a non-negative
mantissa. -/
lemma parseFloat_mantissa_nonneg {l : List Char} {p : ℤ × ℕ}
    (hm : ('-') ∉ l) (h : parseFloat l = some p) : 0 ≤ p.1 := by
  cases l with
  | nil => rw [parseFloat] at h; exact absurd h (by simp)
  | cons c cs =>
    rw [parseFloat] at h
    have hc : ¬(c = '-') := fun hh => hm (hh ▸ List.mem_cons_self _ _)
    rw [if_neg hc] at h
    by_cases hpl : c = '+'
    · rw [if_pos hpl] at h
      rcases Option.map_eq_some'.mp h with ⟨q, _, hpe⟩
      rw [← hpe]
      exact Int.natCast_nonneg q.1
    · rw [if_neg hpl] at h
      rcases Option.map_eq_some'.mp h with ⟨q, _, hpe⟩
      rw [← hpe]
      exact Int.natCast_nonneg q.1

/-- `beginsWith` holds for any list against itself followed by a tail. -/
lemma beginsWith_append (l r : List Char) : beginsWith l (l ++ r) = true := by
  induction l with
  | nil => rfl
  | cons c cs ih => simp [beginsWith, ih]

/-- A list occurs as a substring of any surrounding concatenation. -/
lemma containsSub_append (a m b : List Char) :
    containsSub (a ++ m ++ b) m = true := by
  induction a with
  | nil =>
    cases m with
    | nil =>
      cases b with
      | nil => rfl
      | cons x xs => simp [containsSub, beginsWith]
    | cons y ys =>
      have hb : beginsWith (y :: ys) (y :: (ys ++ b)) = true :=
        beginsWith_append (y :: ys) b
      simp [containsSub, hb]
  | cons x xs ih =>
    rw [List.append_assoc] at ih
    simp [containsSub, List.append_assoc, ih]

/-- Round-half-to-even never exceeds an integer bound that dominates its
argument. -/
lemma roundHalf_le {q : ℚ} {n : ℤ} (h : q ≤ (n : ℚ)) : roundHalf q ≤ n := by
  have hf : Int.floor q ≤ n := by
    have h2 := Int.floor_le_floor h
    rwa [Int.floor_intCast] at h2
  rw [roundHalf]
  split_ifs with h1 h2 h3
  · exact hf
  · have hfl : (Int.floor q : ℚ) ≤ q := Int.floor_le q
    have hlt : ((Int.floor q : ℤ) : ℚ) < (n : ℚ) := by linarith
    have : Int.floor q < n := by exact_mod_cast hlt
    omega
  · exact hf
  · have h12 : q - Int.floor q = 1/2 := le_antisymm (not_lt.mp h2) (not_lt.mp h1)
    have hlt : ((Int.floor q : ℤ) : ℚ) < (n : ℚ) := by linarith
    have : Int.floor q < n := by exact_mod_cast hlt
    omega

/-- The count contribution of the engagement score is capped at 5. -/
lemma countContribution_le_five (s : List Char) : countContribution s ≤ 5 := by
  rw [countContribution]
  split_ifs with h
  · cases hc : scorerTweetCount s with
    | none => simp only [hc]; norm_num
    | some tc =>
      simp only [hc]
      split_ifs with h2
      · exact min_le_left _ _
      · norm_num
  · norm_num

/-- The final clamp-and-round step always lands in [1, 10] on an exact
hundredth. -/
lemma clampRound_shape (q : ℚ) :
    1 ≤ max 1 (min 10 (round2 q)) ∧ max 1 (min 10 (round2 q)) ≤ 10 ∧
    ∃ k : ℤ, max 1 (min 10 (round2 q)) = (k : ℚ) / 100 := by
  refine ⟨le_max_left _ _, max_le (by norm_num) (le_trans (min_le_left _ _) (by norm_num)), ?_⟩
  rcases max_choice (1 : ℚ) (min 10 (round2 q)) with h | h
  · exact ⟨100, by rw [h]; norm_num⟩
  · rcases min_choice (10 : ℚ) (round2 q) with h2 | h2
    · exact ⟨1000, by rw [h, h2]; norm_num⟩
    · exact ⟨roundHalf (q * 100), by rw [h, h2, round2]⟩

/-- C1 counterexample: at rawCount "1.5K" the count value used by
scoreEngagement step 1 is the inline digit-concatenation parse 15000
(contribution 3, total score 4.0), while parseCount gives 1500, whose
spec-side contribution would be 0.3 — so the count used in step 1 does
not equal parseCount(rawCount). -/
theorem c1_count_refinement_cex :
    countContribution ("1.5K".data) = 3 ∧
    specCountContribution ("1.5K".data) = 3/10 ∧
    calculate_engagement_score ⟨[], "1.5K".data, []⟩ = 4 := by
  refine ⟨?_, ?_, ?_⟩
  · have hcount : scorerTweetCount ("1.5K".data) = some 15000 := by decide
    have hcond : ("1.5K".data ≠ ("N/A".data) ∧ "1.5K".data ≠ ([] : List Char)) := by decide
    rw [countContribution, if_pos hcond]
    simp only [hcount]
    norm_num
  · have hp : parse_post_count ("1.5K".data) = 1500 := by
      rw [parse_post_count_eval]; decide
    rw [specCountContribution, hp]
    norm_num
  · have hcount : scorerTweetCount ("1.5K".data) = some 15000 := by decide
    have hcond : ("1.5K".data ≠ ("N/A".data) ∧ "1.5K".data ≠ ([] : List Char)) := by decide
    have hb1 : (trendingKeywords.any fun k => containsSub (pyLower ([] : List Char)) k) = false := by decide
    have hb2 : (indianKeywords.any fun k => containsSub (pyLower ([] : List Char)) k) = false := by decide
    have hb4 : (markerSubstrings.any fun m => containsSub ([] : List Char) m) = false := by decide
    simp only [calculate_engagement_score, engagementGuard, engagementBody,
      countContribution, hcount, hcond, hb1, hb2, hb4, if_true, if_pos]
    norm_num +decide [round2, roundHalf]

/-- C1 amended: scoreEngagement computes its count inline — uppercase-only
`K` → "000" and `M` → "000000" digit concatenation (`scorerTweetCount`) —
rather than via parseCount: the contribution is a function of
`scorerTweetCount`, which maps "2.1M" to 21000000 and "2.1m" to 21, while
parseCount maps "2.1M" to 2100000 and "1.5K" to 1500. -/
theorem c1_count_inline_amended :
    (∀ s : List Char, countContribution s =
      if s ≠ ("N/A".data) ∧ s ≠ [] then
        (match scorerTweetCount s with
         | some tc => if 0 < tc then min 5 (max 0 ((tc : ℚ) / 10000 * 2)) else 0
         | none => 0)
      else 0) ∧
    scorerTweetCount ("50K".data) = some 50000 ∧
    scorerTweetCount ("2.1M".data) = some 21000000 ∧
    scorerTweetCount ("2.1m".data) = some 21 ∧
    scorerTweetCount ("1.5K".data) = some 15000 ∧
    parse_post_count ("2.1M".data) = 2100000 ∧
    parse_post_count ("1.5K".data) = 1500 := by
  refine ⟨fun s => rfl, by decide, by decide, by decide, by decide, ?_, ?_⟩
  · rw [parse_post_count_eval]; decide
  · rw [parse_post_count_eval]; decide

/-- C2 counterexample: parseCount is not non-negative on every input
string — on "-5K" it returns -5000. -/
theorem c2_nonneg_cex :
    parse_post_count ("-5K".data) = -5000 ∧ parse_post_count ("-5K".data) < 0 := by
  have h : parse_post_count ("-5K".data) = -5000 := by
    rw [parse_post_count_eval]; decide
  exact ⟨h, by rw [h]; norm_num⟩

/-- C2 amended: parseCount returns a non-negative integer on every string
drawn from the count alphabet (digits, point, comma, K/k/M/m) — in
particular on every count string without a minus sign — so `posts` is
never negative for such inputs. -/
theorem c2_nonneg_amended (s : List Char) (hs : ∀ c ∈ s, c ∈ countCharset) :
    0 ≤ parse_post_count s := by
  rw [parse_post_count_eval]
  by_cases h0 : s = ("N/A".data) ∨ s = []
  · rw [if_pos h0]
  · rw [if_neg h0]
    have hnomem : ∀ letter : Char,
        ('-') ∉ replaceChar letter [] (pyUpper (replaceChar ',' [] s)) := by
      intro letter hmem
      rcases mem_replaceChar _ _ _ _ hmem with h1 | h1
      · exact absurd h1 (List.not_mem_nil _)
      · rcases List.mem_map.mp h1 with ⟨b, hb, hbu⟩
        rcases mem_replaceChar _ _ _ _ hb with h2 | h2
        · exact absurd h2 (List.not_mem_nil _)
        · have h3 := toUpper_countCharset b (hs b h2)
          rw [hbu] at h3
          exact absurd h3 (by decide)
    simp only []
    split_ifs with hM hK hd
    · cases hp : parseFloat (replaceChar 'M' [] (pyUpper (replaceChar ',' [] s))) with
      | none => simp only [hp]; exact le_rfl
      | some p =>
        simp only [hp]
        exact Int.tdiv_nonneg
          (mul_nonneg (parseFloat_mantissa_nonneg (hnomem 'M') hp) (by norm_num))
          (by positivity)
    · cases hp : parseFloat (replaceChar 'K' [] (pyUpper (replaceChar ',' [] s))) with
      | none => simp only [hp]; exact le_rfl
      | some p =>
        simp only [hp]
        exact Int.tdiv_nonneg
          (mul_nonneg (parseFloat_mantissa_nonneg (hnomem 'K') hp) (by norm_num))
          (by positivity)
    · exact le_rfl
    · exact Int.natCast_nonneg _

/-- C2 witness: "1,234" is drawn from the count alphabet and parses to a
non-negative value. -/
theorem c2_nonneg_witness :
    (∀ c ∈ ("1,234".data), c ∈ countCharset) ∧ 0 ≤ parse_post_count ("1,234".data) :=
  ⟨by decide, c2_nonneg_amended ("1,234".data) (by decide)⟩

/-- C3: the Count Parser's documented values — "N/A", "", "25K", "2.1M",
"1,234" and the malformed "abc" (which yields 0 rather than an error). -/
theorem c3_parse_values :
    parse_post_count ("N/A".data) = 0 ∧
    parse_post_count ("".data) = 0 ∧
    parse_post_count ("25K".data) = 25000 ∧
    parse_post_count ("2.1M".data) = 2100000 ∧
    parse_post_count ("1,234".data) = 1234 ∧
    parse_post_count ("abc".data) = 0 := by
  refine ⟨?_, ?_, ?_, ?_, ?_, ?_⟩ <;> (rw [parse_post_count_eval]; decide)

/-- C4: whenever the external polarity call yields p, the sentiment label
is Positive iff p > 0.05, Negative iff p < -0.05, and Neutral exactly on
the closed band [-0.05, 0.05], so both boundary values give Neutral. -/
theorem c4_sentiment_thresholds (polarityOf : List Char → Option ℚ)
    (hashtag : List Char) (p : ℚ)
    (hp : polarityOf (cleanSentimentText hashtag) = some p) :
    ((analyze_hashtag_sentiment polarityOf hashtag).1 = "Positive" ↔ 1/20 < p) ∧
    ((analyze_hashtag_sentiment polarityOf hashtag).1 = "Negative" ↔ p < -(1/20)) ∧
    ((analyze_hashtag_sentiment polarityOf hashtag).1 = "Neutral" ↔
      -(1/20) ≤ p ∧ p ≤ 1/20) := by
  simp only [analyze_hashtag_sentiment, hp]
  rw [sentimentLabelOf]
  split_ifs with h1 h2
  · exact ⟨iff_of_true rfl h1,
      iff_of_false (by decide) (by intro hh; linarith),
      iff_of_false (by decide) (by intro hh; linarith [hh.2])⟩
  · exact ⟨iff_of_false (by decide) h1,
      iff_of_true rfl h2,
      iff_of_false (by decide) (by intro hh; linarith [hh.1])⟩
  · exact ⟨iff_of_false (by decide) h1,
      iff_of_false (by decide) h2,
      iff_of_true rfl ⟨by linarith [not_lt.mp h2], by linarith [not_lt.mp h1]⟩⟩

/-- C4 witness: both boundary polarities 0.05 and -0.05 label Neutral. -/
theorem c4_sentiment_witness :
    (analyze_hashtag_sentiment (fun _ => some (1/20)) ("#Serene".data)).1 = "Neutral" ∧
    (analyze_hashtag_sentiment (fun _ => some (-(1/20))) ("#Serene".data)).1 = "Neutral" :=
  ⟨((c4_sentiment_thresholds _ _ (1/20) rfl).2.2).mpr (by norm_num),
   ((c4_sentiment_thresholds _ _ (-(1/20)) rfl).2.2).mpr (by norm_num)⟩

/-- C5: for every topic and count string — the empty ones included — the
engagement score lies in [1, 10] and is an exact multiple of 1/100
(two decimal places). -/
theorem c5_score_bounds (td : RawTrend) :
    1 ≤ calculate_engagement_score td ∧ calculate_engagement_score td ≤ 10 ∧
    ∃ k : ℤ, calculate_engagement_score td = (k : ℚ) / 100 := by
  simp only [calculate_engagement_score, engagementGuard, engagementBody]
  exact clampRound_shape _

/-- C5 witness: the bounds hold at the empty topic and empty count. -/
theorem c5_score_bounds_witness :
    1 ≤ calculate_engagement_score ⟨[], [], []⟩ ∧
    calculate_engagement_score ⟨[], [], []⟩ ≤ 10 :=
  ⟨(c5_score_bounds ⟨[], [], []⟩).1, (c5_score_bounds ⟨[], [], []⟩).2.1⟩

/-- C6: the end-to-end scenario — topic "#BreakingNews2024" with raw
count "50K" enriches to posts 50000 and engagement score 8.5 (base 1.0,
capped count contribution 5, urgency 1.5, length 0.5, marker 0.5). -/
theorem c6_end_to_end :
    (enrichOne (fun _ => some 0) "run-1"
      ⟨"#BreakingNews2024".data, "50K".data, []⟩).posts = 50000 ∧
    (enrichOne (fun _ => some 0) "run-1"
      ⟨"#BreakingNews2024".data, "50K".data, []⟩).engagement_score = 17/2 := by
  constructor
  · show parse_post_count ("50K".data) = 50000
    rw [parse_post_count_eval]; decide
  · show calculate_engagement_score ⟨"#BreakingNews2024".data, "50K".data, []⟩ = 17/2
    have hcount : scorerTweetCount ("50K".data) = some 50000 := by decide
    have hcond : ("50K".data ≠ ("N/A".data) ∧ "50K".data ≠ ([] : List Char)) := by decide
    have hb1 : (trendingKeywords.any fun k => containsSub (pyLower ("#BreakingNews2024".data)) k) = true := by decide
    have hb2 : (indianKeywords.any fun k => containsSub (pyLower ("#BreakingNews2024".data)) k) = false := by decide
    have hb4 : (markerSubstrings.any fun m => containsSub ("#BreakingNews2024".data) m) = true := by decide
    simp only [calculate_engagement_score, engagementGuard, engagementBody,
      countContribution, hcount, hcond, hb1, hb2, hb4, if_true, if_pos]
    norm_num +decide [round2, roundHalf]

/-- C7 counterexample: "#Peace" matches no keyword fragment, yet the
fallback content does not contain the original topic text "#Peace" (the
template embeds the marker-stripped "Peace" instead). -/
theorem c7_fallback_cex :
    ((sample_contents (replaceChar '#' [] ("#Peace".data))).find?
      (fun kv => containsSub (pyLower (replaceChar '#' [] ("#Peace".data))) kv.1) = none) ∧
    containsSub (get_hashtag_post_content ("#Peace".data)) ("#Peace".data) = false := by
  exact ⟨by decide, by decide⟩

/-- C7 amended: synthesizeContent is deterministic (it is a pure function
of the topic), selects the first matching keyword fragment in the
mapping's order, and on no match returns the generic fallback template,
which contains the marker-stripped topic text (hence the original topic
whenever the topic has no `#`). -/
theorem c7_content_amended (t : List Char) :
    get_hashtag_post_content t = get_hashtag_post_content t ∧
    (∀ kv : List Char × List Char,
      (sample_contents (replaceChar '#' [] t)).find?
        (fun kv => containsSub (pyLower (replaceChar '#' [] t)) kv.1) = some kv →
      get_hashtag_post_content t = kv.2) ∧
    ((sample_contents (replaceChar '#' [] t)).find?
        (fun kv => containsSub (pyLower (replaceChar '#' [] t)) kv.1) = none →
      get_hashtag_post_content t = defaultContent (replaceChar '#' [] t) ∧
      containsSub (get_hashtag_post_content t) (replaceChar '#' [] t) = true) := by
  refine ⟨rfl, fun kv hkv => ?_, fun hnone => ?_⟩
  · rw [get_hashtag_post_content]
    simp only [hkv]
  · constructor
    · rw [get_hashtag_post_content]
      simp only [hnone]
    · rw [get_hashtag_post_content]
      simp only [hnone]
      rw [defaultContent]
      exact containsSub_append _ _ _

/-- C7 witness: "#Wisdom" matches no fragment and receives the default
template containing the stripped topic "Wisdom". -/
theorem c7_content_witness :
    get_hashtag_post_content ("#Wisdom".data) =
      defaultContent (replaceChar '#' [] ("#Wisdom".data)) ∧
    containsSub (get_hashtag_post_content ("#Wisdom".data))
      (replaceChar '#' [] ("#Wisdom".data)) = true :=
  (c7_content_amended ("#Wisdom".data)).2.2 (by decide)

/-- C8: the core fails soft — a failing external polarity call makes
analyzeSentiment return ("Neutral", 0.0); a failing scorer body makes the
guard return 1.0; and in this embedding the scorer body is total, so
calculate_engagement_score always equals its body and no failure
propagates past either boundary. -/
theorem c8_fail_soft :
    (∀ (polarityOf : List Char → Option ℚ) (hashtag : List Char),
      polarityOf (cleanSentimentText hashtag) = none →
      analyze_hashtag_sentiment polarityOf hashtag = ("Neutral", 0)) ∧
    (∀ (body : RawTrend → Option ℚ) (td : RawTrend),
      body td = none → engagementGuard body td = 1) ∧
    (∀ td : RawTrend, calculate_engagement_score td = engagementBody td) := by
  refine ⟨fun polarityOf hashtag hp => ?_, fun body td hb => ?_, fun td => rfl⟩
  · simp only [analyze_hashtag_sentiment, hp]
  · simp only [engagementGuard, hb]

/-- C8 witness: the fail-soft defaults at a concrete failing oracle and a
concrete failing body. -/
theorem c8_fail_soft_witness :
    analyze_hashtag_sentiment (fun _ => none) ("#Anything".data) = ("Neutral", 0) ∧
    engagementGuard (fun _ => none) ⟨"#Anything".data, "N/A".data, []⟩ = 1 :=
  ⟨c8_fail_soft.1 (fun _ => none) ("#Anything".data) rfl,
   c8_fail_soft.2.1 (fun _ => none) ⟨"#Anything".data, "N/A".data, []⟩ rfl⟩

/-- C9: the pipeline produces exactly one record per raw trend, in input
order with no reordering or deduplication, and every record carries the
shared run identifier, the platform tag "Twitter", the input topic as
topicHashtag, and views 0. -/
theorem c9_pipeline_order (polarityOf : List Char → Option ℚ)
    (runId : String) (ts : List RawTrend) :
    (insert_fresh_data_only polarityOf runId ts).length = ts.length ∧
    (∀ i : ℕ, (insert_fresh_data_only polarityOf runId ts)[i]? =
      (ts[i]?).map (enrichOne polarityOf runId)) ∧
    (∀ t : RawTrend,
      (enrichOne polarityOf runId t).version_id = runId ∧
      (enrichOne polarityOf runId t).platform = "Twitter" ∧
      (enrichOne polarityOf runId t).topic_hashtag = t.topic ∧
      (enrichOne polarityOf runId t).views = 0) := by
  refine ⟨by simp [insert_fresh_data_only], fun i => ?_,
    fun t => ⟨rfl, rfl, rfl, rfl⟩⟩
  simp [insert_fresh_data_only, List.getElem?_map]

/-- C10: the engagement score never exceeds 9.5 — base 1.0 plus the
capped count contribution 5 plus the maximal bonuses 1.5 + 1.0 + 0.5 +
0.5 — so the upper clamp at 10 is never attained. -/
theorem c10_score_never_ten (td : RawTrend) :
    calculate_engagement_score td ≤ 19/2 ∧ calculate_engagement_score td < 10 := by
  have hle : calculate_engagement_score td ≤ 19/2 := by
    simp only [calculate_engagement_score, engagementGuard, engagementBody]
    have hc : countContribution td.count ≤ 5 := countContribution_le_five _
    have h1 : (if trendingKeywords.any (fun k => containsSub (pyLower td.topic) k)
        then (3/2 : ℚ) else 0) ≤ 3/2 := by split <;> norm_num
    have h2 : (if indianKeywords.any (fun k => containsSub (pyLower td.topic) k)
        then (1 : ℚ) else 0) ≤ 1 := by split <;> norm_num
    have h3 : (if 15 < td.topic.length then (1/2 : ℚ) else 0) ≤ 1/2 := by
      split <;> norm_num
    have h4 : (if markerSubstrings.any (fun m => containsSub td.topic m)
        then (1/2 : ℚ) else 0) ≤ 1/2 := by split <;> norm_num
    have hq : (1 + countContribution td.count
        + (if trendingKeywords.any (fun k => containsSub (pyLower td.topic) k) then (3/2 : ℚ) else 0)
        + (if indianKeywords.any (fun k => containsSub (pyLower td.topic) k) then (1 : ℚ) else 0)
        + (if 15 < td.topic.length then (1/2 : ℚ) else 0)
        + (if markerSubstrings.any (fun m => containsSub td.topic m) then (1/2 : ℚ) else 0))
        ≤ 19/2 := by linarith
    have h100 : (1 + countContribution td.count
        + (if trendingKeywords.any (fun k => containsSub (pyLower td.topic) k) then (3/2 : ℚ) else 0)
        + (if indianKeywords.any (fun k => containsSub (pyLower td.topic) k) then (1 : ℚ) else 0)
        + (if 15 < td.topic.length then (1/2 : ℚ) else 0)
        + (if markerSubstrings.any (fun m => containsSub td.topic m) then (1/2 : ℚ) else 0)) * 100
        ≤ ((950 : ℤ) : ℚ) := by push_cast; linarith
    have hrh := roundHalf_le h100
    have hr2 : ((roundHalf ((1 + countContribution td.count
        + (if trendingKeywords.any (fun k => containsSub (pyLower td.topic) k) then (3/2 : ℚ) else 0)
        + (if indianKeywords.any (fun k => containsSub (pyLower td.topic) k) then (1 : ℚ) else 0)
        + (if 15 < td.topic.length then (1/2 : ℚ) else 0)
        + (if markerSubstrings.any (fun m => containsSub td.topic m) then (1/2 : ℚ) else 0)) * 100) : ℤ) : ℚ)
        ≤ (950 : ℚ) := by exact_mod_cast hrh
    refine max_le (by norm_num) (le_trans (min_le_right _ _) ?_)
    rw [round2]
    linarith
  exact ⟨hle, lt_of_le_of_lt hle (by norm_num)⟩

/-- C9 witness: a concrete one-element run — one record, at index 0, with
the run identifier, platform tag, topic and zero views. -/
theorem c9_pipeline_order_witness :
    (insert_fresh_data_only (fun _ => none) "run-9"
      [⟨"#a".data, "N/A".data, []⟩]).length = 1 ∧
    (enrichOne (fun _ => none) "run-9" ⟨"#a".data, "N/A".data, []⟩).platform = "Twitter" :=
  ⟨(c9_pipeline_order (fun _ => none) "run-9" [⟨"#a".data, "N/A".data, []⟩]).1,
   ((c9_pipeline_order (fun _ => none) "run-9" [⟨"#a".data, "N/A".data, []⟩]).2.2
      ⟨"#a".data, "N/A".data, []⟩).2.1⟩

/-- C10 witness: the strict bound below 10 at a concrete trend. -/
theorem c10_score_never_ten_witness :
    calculate_engagement_score ⟨"#BreakingNews2024".data, "50K".data, []⟩ < 10 :=
  (c10_score_never_ten ⟨"#BreakingNews2024".data, "50K".data, []⟩).2
